import Mathlib

/-!
Verification development for the netdiag-suite service health-checking engine
(`src/net_diag_tool/modules/services/checker.py` and
`src/net_diag_tool/core/database.py`).

The checker class body contains two generations of methods: a concurrent
generation (checker.py lines 55-236) followed by a synchronous generation
(lines 352-593).  Python executes the class body top to bottom, so a method
defined later shadows an earlier one of the same name.  The effective class
therefore uses: `check_http_service` from line 55 (never redefined; the
duplicate at lines 320-350 sits unreachably after a `return` inside
`export_status_page`), `check_tcp_service` from line 352,
`check_dns_resolution` from line 371 (whose result logic coincides with the
concurrent variant at line 114), `check_api_endpoint` from line 401,
`perform_check` from line 437, and `monitor_continuously` from line 466 —
the entry point `main.py:220` invokes.  The embedding below models the
effective methods, and additionally the shadowed concurrent
`check_api_endpoint` (line 147) where a claim cites it.

Network and clock effects are inputs of the model: each checker takes the
outcome of its probe (connection result, resolved addresses, HTTP response,
elapsed milliseconds) and the capture time as arguments and computes the
result dictionary exactly as the source does.
-/

namespace NetDiag

/-- Milliseconds and timestamps are modelled as rationals (the source uses
Python floats; no claim depends on float representation effects). -/
abbrev Ms := ℚ

/-- Python `round(x, 2)`: round to two decimal places.  (Mathlib `round`
rounds half up while Python rounds half to even; no proved property
inspects a tie.) -/
def round2 (q : ℚ) : ℚ := ((round (q * 100) : ℤ) : ℚ) / 100

/-- Result dictionary produced by a checker.  Fields mirror the keys the
source puts into the per-check dicts; a key a given code path never writes
stays `none` (`ssl_valid` is only ever written by the HTTP checker, the
error text lives under `error_message` for HTTP/TCP and under `error` for
DNS/API, exactly as in the source). -/
structure CheckResult where
  status : String
  timestamp : Option Ms := none
  error_message : Option String := none
  error : Option String := none
  response_time_ms : Option Ms := none
  status_code : Option ℤ := none
  ssl_valid : Option Bool := none
  ips : Option (List String) := none
  data_sample : Option String := none
  deriving DecidableEq, Repr

/-- The error message of a result as the program itself reads it: the
coalescing `result.get(\x27error_message\x27) or result.get(\x27error\x27)`
applied when persisting (database.py:62) and when alerting (checker.py:483).
(`Option.orElse` on absent values; the Python `or` additionally skips an
empty string, which no proved property depends on.) -/
def errorMessageOf (r : CheckResult) : Option String :=
  r.error_message.orElse (fun _ => r.error)

/-- Python `a or b` on optional strings: `None` and `""` are falsy. -/
def pyOrStr (a b : Option String) : Option String :=
  match a with
  | none => b
  | some s => if s = "" then b else some s

/-- Python `repr` of a list of strings, as interpolated by the f-string in
the DNS mismatch message (checker.py:135,389): `[\x271.2.3.4\x27]`. -/
def pyListRepr (xs : List String) : String :=
  "[" ++ String.intercalate ", " (xs.map (fun s => "\x27" ++ s ++ "\x27")) ++ "]"

/-- Outcome of one HTTP request issued by `check_http_service`: a response
with its status code and elapsed milliseconds, an `httpx.RequestError`, or
any other exception (both carrying `str(e)`). -/
inductive HttpOutcome where
  | response (code : ℤ) (elapsedMs : Ms)
  | requestError (msg : String)
  | otherError (msg : String)
  deriving DecidableEq, Repr

/-- Checker.py lines 55-85, `check_http_service` (concurrent generation;
the only definition of this method that is in effect — the synchronous
duplicate at lines 320-350 is unreachable code after a `return`).  The
init dict sets `status="down"`, `ssl_valid=False`, `error_message=None`,
`response_time_ms=0`; a response updates `response_time_ms`,
`status_code`, `status` (`"up"` iff the code equals `expected_status`),
`ssl_valid` (url starts with "https"), and on a code mismatch sets
`error_message = "Unexpected status: {code}"`; an exception leaves the
init values and sets `error_message`.  The request target and timeout
only shape the outcome, which the model takes as input. -/
def check_http_service (now : Ms) (url : String) (expected_status : ℤ)
    (o : HttpOutcome) : CheckResult :=
  match o with
  | .response code elapsedMs =>
      { status := if code = expected_status then "up" else "down"
        timestamp := some now
        response_time_ms := some (round2 elapsedMs)
        status_code := some code
        ssl_valid := some (url.startsWith "https")
        error_message :=
          if code = expected_status then none
          else some ("Unexpected status: " ++ toString code) }
  | .requestError msg =>
      { status := "down", timestamp := some now
        response_time_ms := some 0, ssl_valid := some false
        error_message := some ("Request Error: " ++ msg) }
  | .otherError msg =>
      { status := "down", timestamp := some now
        response_time_ms := some 0, ssl_valid := some false
        error_message := some msg }

/-- Outcome of one TCP connection attempt: established (with elapsed
milliseconds) or failed with `str(e)`. -/
inductive TcpOutcome where
  | success (elapsedMs : Ms)
  | failure (msg : String)
  deriving DecidableEq, Repr

/-- Checker.py lines 352-369, `check_tcp_service` (the effective
definition: it shadows the concurrent variant at lines 87-112).  The init
dict is `{timestamp, status: "down", error_message: None}` with no
`response_time_ms` key; a successful `socket.create_connection` sets
`status="up"` and `response_time_ms`; any exception sets
`error_message = str(e)` and leaves `response_time_ms` absent.  (The
shadowed concurrent variant instead initialises `response_time_ms` to 0.)
Host, port and timeout only shape the outcome. -/
def check_tcp_service (now : Ms) (o : TcpOutcome) : CheckResult :=
  match o with
  | .success elapsedMs =>
      { status := "up", timestamp := some now
        response_time_ms := some (round2 elapsedMs) }
  | .failure msg =>
      { status := "down", timestamp := some now
        error_message := some msg }

/-- Checker.py lines 87-112, the shadowed concurrent `check_tcp_service`:
identical to the effective one except that the init dict contains
`"response_time_ms": 0`, which a failure path leaves in place. -/
def check_tcp_service_async (now : Ms) (o : TcpOutcome) : CheckResult :=
  match o with
  | .success elapsedMs =>
      { status := "up", timestamp := some now
        response_time_ms := some (round2 elapsedMs) }
  | .failure msg =>
      { status := "down", timestamp := some now
        response_time_ms := some 0
        error_message := some msg }

/-- Outcome of one A-record resolution: the list of resolved address
strings with elapsed milliseconds, or a resolver exception `str(e)`. -/
inductive DnsOutcome where
  | resolved (ips : List String) (elapsedMs : Ms)
  | failure (msg : String)
  deriving DecidableEq, Repr

/-- Checker.py lines 371-399, `check_dns_resolution` (the effective
definition, shadowing lines 114-145; both compute the same result
fields).  The init dict is `{timestamp, status: "down", error: None}`.  On
resolution: status is `"up"` unless `expected_ip` is truthy and not among
the resolved addresses, in which case status is `"down"` and
`error = "IP mismatch. Expected {expected_ip}, got {ips}"`; the result
gains `response_time_ms` and `ips` either way.  A resolver exception sets
`error = str(e)`.  The domain argument only shapes the outcome. -/
def check_dns_resolution (now : Ms) (expected_ip : Option String)
    (o : DnsOutcome) : CheckResult :=
  match o with
  | .resolved ips elapsedMs =>
      match expected_ip with
      | some ip =>
          if ip ≠ "" ∧ ¬ ips.contains ip then
            { status := "down", timestamp := some now
              error := some ("IP mismatch. Expected " ++ ip ++ ", got "
                              ++ pyListRepr ips)
              response_time_ms := some (round2 elapsedMs)
              ips := some ips }
          else
            { status := "up", timestamp := some now
              response_time_ms := some (round2 elapsedMs)
              ips := some ips }
      | none =>
          { status := "up", timestamp := some now
            response_time_ms := some (round2 elapsedMs)
            ips := some ips }
  | .failure msg =>
      { status := "down", timestamp := some now
        error := some msg }

/-- Decoding outcome of a response body: `resp.json()` yields structured
data (modelled by its `str(data)` rendering) or raises
`json.JSONDecodeError`. -/
inductive BodyDecode where
  | ok (dataStr : String)
  | decodeFail
  deriving DecidableEq, Repr

/-- Outcome of one API request: a response with status code, body decoding
outcome and elapsed milliseconds, or a request exception `str(e)`. -/
inductive ApiOutcome where
  | response (code : ℤ) (body : BodyDecode) (elapsedMs : Ms)
  | requestError (msg : String)
  deriving DecidableEq, Repr

/-- Checker.py lines 147-177, the concurrent `check_api_endpoint` (shadowed
by the synchronous duplicate at line 401, but cited by the specification for
API behaviour).  Init dict `{timestamp, status: "down", error: None}`.  A
non-2xx response (`not resp.is_success`) returns early with
`error = "API Error: {code}"`; on a 2xx response a decodable body yields
`status="up"` with `response_time_ms` and `data_sample = str(data)[:100]`,
while `json.JSONDecodeError` sets `error = "Invalid JSON response"`.  Any
other exception sets `error = str(e)`.  Note the function receives
`expected_response` (unused) and never consults `expected_status`. -/
def check_api_endpoint_async (now : Ms) (o : ApiOutcome) : CheckResult :=
  match o with
  | .response code body elapsedMs =>
      if ¬ (200 ≤ code ∧ code < 300) then
        { status := "down", timestamp := some now
          error := some ("API Error: " ++ toString code) }
      else
        match body with
        | .ok dataStr =>
            { status := "up", timestamp := some now
              response_time_ms := some (round2 elapsedMs)
              data_sample := some (dataStr.take 100) }
        | .decodeFail =>
            { status := "down", timestamp := some now
              error := some "Invalid JSON response" }
  | .requestError msg =>
      { status := "down", timestamp := some now
        error := some msg }

/-- Checker.py lines 401-435, `check_api_endpoint` (the effective
definition, shadowing line 147).  Its body begins with
`resp = requests.request(method, url, timeout=timeout)` (line 411), but
the module never imports `requests` (checker.py imports httpx instead), so
every execution raises `NameError` at that line inside the `try:`, which
`except Exception as e` (line 432) converts to a down result with
`error = str(e)`.  No request is ever issued, so the probe outcome is
ignored. -/
def check_api_endpoint (now : Ms) (_o : ApiOutcome) : CheckResult :=
  { status := "down", timestamp := some now
    error := some "name \x27requests\x27 is not defined" }

/-- One service definition as loaded from `services.json`.  `type` is
`service.get("type", "http")` so it is optional with default "http"; the
protocol target fields are read with `service["..."]` subscripts by the
dispatcher and are modelled as plain fields (a well-formed definition
carries the target of its type).  `alert_on_failure` models the truthiness
of `service.get(\x27alert_on_failure\x27)`. -/
structure Service where
  name : String
  type : Option String := none
  url : String := ""
  host : String := ""
  port : ℤ := 0
  timeout : Option ℤ := none
  expected_status : Option ℤ := none
  expected_ip : Option String := none
  method : Option String := none
  alert_on_failure : Bool := false
  deriving DecidableEq, Repr

/-- Probe outcomes available to one dispatched check: the environment
input for whichever protocol the dispatcher selects. -/
structure Env where
  tcp : TcpOutcome := .failure ""
  dns : DnsOutcome := .failure ""
  api : ApiOutcome := .requestError ""
  deriving DecidableEq, Repr

/-- Value returned by the effective `perform_check`.  For a service of
type "http" the dispatcher (checker.py:442-447) invokes
`self.check_http_service(url, timeout, expected)`, but the effective
`check_http_service` is the `async def` of line 55 (never overridden), so
the call merely builds a coroutine object — the body never runs and no
result dictionary is produced.  All other branches return a result dict. -/
inductive Dispatched where
  | result (r : CheckResult)
  | coroutine
  deriving DecidableEq, Repr

/-- The dict literal `{"status": "unknown", "error": "Unknown type"}`
returned for an unrecognised service type (checker.py:464 and 207). -/
def unknownResult : CheckResult :=
  { status := "unknown", error := some "Unknown type" }

/-- Checker.py lines 437-464, `perform_check` (the effective definition,
shadowing lines 179-207; both dispatch identically on
`service.get("type", "http")` and both pass only `service["host"]` to the
DNS checker, leaving its `expected_ip` parameter at its default `None`).
The "http" branch calls the effective (concurrent) `check_http_service`
with positionally mismatched arguments and gets back an unexecuted
coroutine; "tcp", "dns" and "api" run the effective synchronous checkers;
any other type returns the literal unknown-type dict. -/
def performCheck (svc : Service) (now : Ms) (env : Env) : Dispatched :=
  let stype := svc.type.getD "http"
  if stype = "http" then
    Dispatched.coroutine
  else if stype = "tcp" then
    Dispatched.result (check_tcp_service now env.tcp)
  else if stype = "dns" then
    Dispatched.result (check_dns_resolution now none env.dns)
  else if stype = "api" then
    Dispatched.result (check_api_endpoint now env.api)
  else
    Dispatched.result unknownResult

/-- The valid dispatch types of checker.py:442-462. -/
def validTypes : List String := ["http", "tcp", "dns", "api"]

/-- Alert payload at the `send_alert(service_name, type, message)` call
boundary (checker.py:483 and 538-544); `send_alert` appends exactly one
entry to `self.alerts` per call, formatting these three arguments into its
message. -/
structure AlertPayload where
  service_name : String
  kind : String
  detail : Option String
  deriving DecidableEq, Repr

/-- The alert-log entry text `send_alert` builds (checker.py:540); a
`None` detail renders as Python prints it. -/
def sendAlertMessage (p : AlertPayload) : String :=
  "ALERT: " ++ p.service_name ++ " is " ++ p.kind ++ ". Detail: "
    ++ (match p.detail with | none => "None" | some s => s)

/-- Checker.py lines 481-483 inside the effective monitoring loop
`monitor_continuously` (line 466, the loop `main.py:220` runs): after a
check of a service produced `res`, send exactly one alert
`send_alert(name, "DOWN", res.get(\x27error_message\x27) or
res.get(\x27error\x27))` iff `res[\x27status\x27] == \x27down\x27` and the
definition has truthy `alert_on_failure`; otherwise none. -/
def alertsForResult (svc : Service) (res : CheckResult) : List AlertPayload :=
  if res.status = "down" ∧ svc.alert_on_failure then
    [⟨svc.name, "DOWN", pyOrStr res.error_message res.error⟩]
  else
    []

/-- Alerts emitted by one pass of the cycle body over its services
(checker.py:472-483): the concatenation, in service order, of each
alert contribution of each result. -/
def cycleAlerts (cycle : List (Service × CheckResult)) : List AlertPayload :=
  (cycle.map (fun p => alertsForResult p.1 p.2)).flatten

/-- Metrics-cache record step (checker.py:477-479, identically 230-231):
`self.metrics[name].append(res)` then `if len > 100: pop(0)`. -/
def recordMetric (buf : List α) (x : α) : List α :=
  if (buf ++ [x]).length > 100 then (buf ++ [x]).drop 1 else buf ++ [x]

/-- A sequence of record operations applied in capture order. -/
def recordAll (buf : List α) (xs : List α) : List α :=
  xs.foldl recordMetric buf

/-- One row of the `service_checks` table (database.py:19-30); timestamps
are seconds on the clock used by `datetime(\x27now\x27, ...)`. -/
structure CheckRow where
  service_name : String
  service_type : String := ""
  status : String
  response_time_ms : Option Ms := none
  status_code : Option ℤ := none
  error_message : Option String := none
  timestamp : ℚ
  deriving DecidableEq, Repr

/-- Aggregate returned by `get_uptime_stats` (database.py:104-108). -/
structure UptimeStats where
  uptime_percent : ℚ
  total_checks : ℕ
  avg_latency : ℚ
  deriving DecidableEq, Repr

/-- Rows of the table that the `get_uptime_stats` query selects
(database.py:92-94): matching `service_name` and
`timestamp >= datetime(\x27now\x27, \x27-{hours} hours\x27)`. -/
def rowsInWindow (rows : List CheckRow) (name : String) (now : ℚ)
    (hours : ℕ) : List CheckRow :=
  rows.filter (fun r => r.service_name = name ∧ now - hours * 3600 ≤ r.timestamp)

/-- Database.py lines 84-108, `get_uptime_stats`: over the selected rows,
`COUNT(*)`, `SUM(CASE WHEN status = \x27up\x27 THEN 1 ELSE 0 END)` and
`AVG(response_time_ms)` (SQL `AVG` skips NULLs and is NULL over an empty
selection, coalesced by `or 0`); then
`uptime_percent = success / total * 100 if total > 0 else 0.0` and
`avg_latency` rounded to two decimals.  Arithmetic is modelled in ℚ. -/
def get_uptime_stats (rows : List CheckRow) (name : String) (now : ℚ)
    (hours : ℕ) : UptimeStats :=
  let sel := rowsInWindow rows name now hours
  let total := sel.length
  let success := sel.countP (fun r => r.status = "up")
  let lats := sel.filterMap (fun r => r.response_time_ms)
  let avg : ℚ := if lats.length > 0 then lats.sum / lats.length else 0
  { uptime_percent := if total > 0 then (success : ℚ) / total * 100 else 0
    total_checks := total
    avg_latency := round2 avg }

/-- Outcome of the SQL work done on one acquired connection: the engine
answers the statement(s) with a value, or raises (sqlite3 operational
errors such as a locked database). -/
inductive QueryOutcome (α : Type) where
  | ok (val : α)
  | fail (msg : String)
  deriving DecidableEq, Repr

/-- Whether a query outcome succeeded. -/
def QueryOutcome.isOk : QueryOutcome α → Bool
  | .ok _ => true
  | .fail _ => false

/-- Trace of one store operation: what it returned or raised, and whether
`conn.close()` was reached on that path. -/
structure DbRun (α : Type) where
  outcome : Except String α
  connReleased : Bool
  deriving Repr

/-- Database.py lines 48-67, `log_check`: `conn = self._get_connection()`
then `try: execute; commit finally: conn.close()` — the close runs on the
success path and on the raising path alike. -/
def logCheckRun (q : QueryOutcome Unit) : DbRun Unit :=
  match q with
  | .ok v => { outcome := Except.ok v, connReleased := true }
  | .fail m => { outcome := Except.error m, connReleased := true }

/-- Database.py lines 69-82, `get_history`: connection acquired at line
71, `conn.close()` at line 81 only after `execute`/`fetchall` return; an
exception from the query propagates before the close, leaving the
connection open (there is no `try`/`finally` here). -/
def getHistoryRun (q : QueryOutcome (List CheckRow)) : DbRun (List CheckRow) :=
  match q with
  | .ok rows => { outcome := Except.ok rows, connReleased := true }
  | .fail m => { outcome := Except.error m, connReleased := false }

/-- Database.py lines 84-108, `get_uptime_stats`: same shape as
`get_history` — `conn.close()` at line 98 is only reached when the query
returns; no `try`/`finally`. -/
def getUptimeStatsRun (q : QueryOutcome UptimeStats) : DbRun UptimeStats :=
  match q with
  | .ok stats => { outcome := Except.ok stats, connReleased := true }
  | .fail m => { outcome := Except.error m, connReleased := false }

/-- The result invariant of spec §3: a down result carries an error
message, an up result carries none (reading the error message the way the
program does, see `errorMessageOf`). -/
def statusErrorInv (r : CheckResult) : Prop :=
  (r.status = "down" → errorMessageOf r ≠ none)
    ∧ (r.status = "up" → errorMessageOf r = none)

/-! Helper lemmas. -/

theorem round2_nonneg {q : ℚ} (h : 0 ≤ q) : 0 ≤ round2 q := by
  unfold round2
  have h1 : (0 : ℤ) ≤ round (q * 100) := by
    rw [round_eq]
    exact Int.le_floor.mpr (by push_cast; linarith)
  positivity

theorem status_check_tcp (now : Ms) (o : TcpOutcome) :
    (check_tcp_service now o).status = "up"
      ∨ (check_tcp_service now o).status = "down" := by
  cases o <;> simp [check_tcp_service]

theorem status_check_dns (now : Ms) (eip : Option String) (o : DnsOutcome) :
    (check_dns_resolution now eip o).status = "up"
      ∨ (check_dns_resolution now eip o).status = "down" := by
  cases o with
  | resolved ips e =>
      cases eip with
      | some ip =>
          simp only [check_dns_resolution]
          split <;> simp
      | none => simp [check_dns_resolution]
  | failure m => simp [check_dns_resolution]

theorem status_check_api (now : Ms) (o : ApiOutcome) :
    (check_api_endpoint now o).status = "down" := by
  simp [check_api_endpoint]

theorem recordMetric_length_le (buf : List α) (x : α) (h : buf.length ≤ 100) :
    (recordMetric buf x).length ≤ 100 := by
  unfold recordMetric
  split
  · simpa using h
  · next hnot =>
      simp only [List.length_append, List.length_cons, List.length_nil,
                 gt_iff_lt, not_lt] at hnot ⊢
      omega

theorem recordAll_length_le (xs : List α) :
    ∀ buf : List α, buf.length ≤ 100 → (recordAll buf xs).length ≤ 100 := by
  induction xs with
  | nil => intro buf h; exact h
  | cons x xs ih => intro buf h; exact ih _ (recordMetric_length_le buf x h)

theorem recordAll_evict_one (xs : List α) :
    ∀ buf : List α, 1 ≤ buf.length → buf.length ≤ 100 →
      buf.length + xs.length = 101 → recordAll buf xs = (buf ++ xs).drop 1 := by
  induction xs with
  | nil =>
      intro buf h1 h2 h3
      simp only [List.length_nil, Nat.add_zero] at h3
      omega
  | cons y ys ih =>
      intro buf h1 h2 h3
      simp only [List.length_cons] at h3
      by_cases hb : buf.length ≤ 99
      · have hm : recordMetric buf y = buf ++ [y] := by
          unfold recordMetric
          rw [if_neg]
          simp only [List.length_append, List.length_cons, List.length_nil,
                     gt_iff_lt, not_lt]
          omega
        show recordAll (recordMetric buf y) ys = (buf ++ y :: ys).drop 1
        rw [hm, ih (buf ++ [y]) (by simp) (by simp; omega) (by simp; omega)]
        simp
      · have hb' : buf.length = 100 := by omega
        have hys : ys = [] := List.length_eq_zero.mp (by omega)
        have hm : recordMetric buf y = (buf ++ [y]).drop 1 := by
          unfold recordMetric
          rw [if_pos]
          simp only [List.length_append, List.length_cons, List.length_nil,
                     gt_iff_lt]
          omega
        subst hys
        show recordAll (recordMetric buf y) [] = (buf ++ [y]).drop 1
        rw [hm]
        rfl

/-! Claim theorems. -/

/-- C1: the claim fails on the code.  For a DNS service definition with
`expected_ip = "1.2.3.4"` whose resolution returns `["5.6.7.8"]` (which
omits the expected IP), the dispatched check comes back `"up"` with no
error, because `perform_check` passes only `service["host"]` to
`check_dns_resolution` and leaves `expected_ip` at `None`
(checker.py:455, likewise 197).  The checker itself, given the
expected_ip of the definition directly, produces the claimed `"down"` result
whose error names both the expected IP and the resolved set — so the
mismatch logic exists but is unreachable through dispatch. -/
theorem dns_dispatch_ignores_expected_ip :
    (performCheck
        { name := "dns-svc", type := some "dns", host := "example.com",
          expected_ip := some "1.2.3.4" } 0
        { dns := DnsOutcome.resolved ["5.6.7.8"] 10 }
      = Dispatched.result
          (check_dns_resolution 0 none (DnsOutcome.resolved ["5.6.7.8"] 10))
      ∧ (check_dns_resolution 0 none
          (DnsOutcome.resolved ["5.6.7.8"] 10)).status = "up"
      ∧ errorMessageOf (check_dns_resolution 0 none
          (DnsOutcome.resolved ["5.6.7.8"] 10)) = none)
    ∧ ((check_dns_resolution 0 (some "1.2.3.4")
          (DnsOutcome.resolved ["5.6.7.8"] 10)).status = "down"
      ∧ (check_dns_resolution 0 (some "1.2.3.4")
          (DnsOutcome.resolved ["5.6.7.8"] 10)).error
        = some "IP mismatch. Expected 1.2.3.4, got [\x275.6.7.8\x27]") := by
  refine ⟨⟨?_, ?_, ?_⟩, ?_, ?_⟩ <;> rfl

/-- C3: for every TCP check (effective `check_tcp_service`,
checker.py:352-369), a failed connection attempt yields status "down"
with `response_time_ms` absent (null), and a successful connection with
non-negative elapsed time yields status "up" with a non-negative
`response_time_ms`. -/
theorem tcp_check_status_and_latency (now : Ms) :
    (∀ msg, (check_tcp_service now (TcpOutcome.failure msg)).status = "down"
      ∧ (check_tcp_service now (TcpOutcome.failure msg)).response_time_ms = none)
    ∧ (∀ e : Ms, 0 ≤ e →
        (check_tcp_service now (TcpOutcome.success e)).status = "up"
        ∧ ∃ q, (check_tcp_service now (TcpOutcome.success e)).response_time_ms
                  = some q
            ∧ 0 ≤ q) := by
  constructor
  · intro msg
    exact ⟨rfl, rfl⟩
  · intro e he
    exact ⟨rfl, round2 e, rfl, round2_nonneg he⟩

/-- Witness for C3 at a concrete refused connection and a concrete
12 ms successful connection. -/
theorem tcp_check_status_and_latency_witness :
    ((check_tcp_service 0 (TcpOutcome.failure "connection refused")).status
        = "down"
      ∧ (check_tcp_service 0
          (TcpOutcome.failure "connection refused")).response_time_ms = none)
    ∧ ((check_tcp_service 0 (TcpOutcome.success 12)).status = "up"
      ∧ ∃ q, (check_tcp_service 0 (TcpOutcome.success 12)).response_time_ms
                = some q
          ∧ 0 ≤ q) :=
  ⟨(tcp_check_status_and_latency 0).1 "connection refused",
   (tcp_check_status_and_latency 0).2 12 (by norm_num)⟩

/-- C5: the claim fails on the code.  The effective `check_api_endpoint`
(checker.py:401-435) references the name `requests`, which the module
never imports, so every API check raises `NameError` inside its `try:`
and returns `"down"` with `error = "name \x27requests\x27 is not
defined"` — even for a 200 response with a decodable JSON body and
`expected_status = 200`.  Moreover neither implementation consults
`expected_status`: the shadowed concurrent variant (checker.py:147-177)
reports "up" for any 2xx response with a decodable body. -/
theorem api_check_never_up :
    check_api_endpoint 0 (ApiOutcome.response 200 (BodyDecode.ok "status ok") 5)
      = { status := "down", timestamp := some 0,
          error := some "name \x27requests\x27 is not defined" }
    ∧ (check_api_endpoint_async 0
        (ApiOutcome.response 200 (BodyDecode.ok "status ok") 5)).status = "up" :=
  ⟨rfl, rfl⟩

/-- C8: the claim fails on the code.  For a service of the valid type
"http", the effective `perform_check` (checker.py:437-447) invokes the
effective `check_http_service` — the `async def` of line 55, with
positionally mismatched arguments — and returns the resulting unexecuted
coroutine object instead of any CheckResult; no underlying failure is ever
converted to a "down" result on this branch (downstream, the monitoring
loop expression `res[\x27status\x27]` then raises TypeError).  A missing `type`
key defaults to "http" (checker.py:439) and behaves the same way. -/
theorem http_dispatch_returns_coroutine :
    performCheck
        { name := "web", type := some "http", url := "https://example.com" } 0
        { tcp := TcpOutcome.failure "connection refused" }
      = Dispatched.coroutine
    ∧ performCheck { name := "web-default" } 0
        { tcp := TcpOutcome.failure "connection refused" }
      = Dispatched.coroutine :=
  ⟨rfl, rfl⟩

/-- C2: for a service definition with `alert_on_failure` true, a cycle of
the monitoring loop (the effective `monitor_continuously`,
checker.py:466-488) that obtains a "down" result for that service emits
exactly one alert payload for that result — kind "DOWN", detail the
error message of the result as the loop reads it
(`res.get(\x27error_message\x27) or res.get(\x27error\x27)`,
checker.py:483) — wherever that service sits in the cycle. -/
theorem down_result_emits_one_alert (svc : Service) (res : CheckResult)
    (halert : svc.alert_on_failure = true) (hdown : res.status = "down") :
    alertsForResult svc res
      = [⟨svc.name, "DOWN", pyOrStr res.error_message res.error⟩]
    ∧ ∀ pre post,
        cycleAlerts (pre ++ (svc, res) :: post)
          = cycleAlerts pre
              ++ [⟨svc.name, "DOWN", pyOrStr res.error_message res.error⟩]
              ++ cycleAlerts post := by
  have h1 : alertsForResult svc res
      = [⟨svc.name, "DOWN", pyOrStr res.error_message res.error⟩] := by
    simp [alertsForResult, halert, hdown]
  refine ⟨h1, fun pre post => ?_⟩
  simp [cycleAlerts, h1]

/-- Witness for C2: a down result with error message "timed out" for an
alert-eligible service yields the single DOWN payload, in a cycle where
another service precedes it. -/
theorem down_result_emits_one_alert_witness :
    alertsForResult { name := "db", type := some "tcp", alert_on_failure := true }
        { status := "down", error_message := some "timed out" }
      = [⟨"db", "DOWN", some "timed out"⟩]
    ∧ cycleAlerts
        [({ name := "web", type := some "http" }, { status := "up" }),
         ({ name := "db", type := some "tcp", alert_on_failure := true },
          { status := "down", error_message := some "timed out" })]
      = [⟨"db", "DOWN", some "timed out"⟩] := by
  have h := down_result_emits_one_alert
    { name := "db", type := some "tcp", alert_on_failure := true }
    { status := "down", error_message := some "timed out" } rfl rfl
  refine ⟨h.1, ?_⟩
  have h2 := h.2 [({ name := "web", type := some "http" }, { status := "up" })] []
  exact h2.trans (by simp [cycleAlerts, alertsForResult, pyOrStr])

/-- C4: every result produced by the protocol check operations satisfies
the invariant: status "down" implies a non-null error message, status
"up" implies a null one — for the HTTP checker (checker.py:55-85), the
effective TCP checker (352-369), the DNS checker (371-399, identically
114-145), and both API checkers (the effective 401-435 and the shadowed
concurrent 147-177).  The error message is read the way the program reads
it: `error_message` coalesced with `error` (database.py:62,
checker.py:483). -/
theorem check_results_error_invariant :
    (∀ (now : Ms) (url : String) (es : ℤ) (o : HttpOutcome),
        statusErrorInv (check_http_service now url es o))
    ∧ (∀ (now : Ms) (o : TcpOutcome), statusErrorInv (check_tcp_service now o))
    ∧ (∀ (now : Ms) (eip : Option String) (o : DnsOutcome),
        statusErrorInv (check_dns_resolution now eip o))
    ∧ (∀ (now : Ms) (o : ApiOutcome),
        statusErrorInv (check_api_endpoint_async now o))
    ∧ (∀ (now : Ms) (o : ApiOutcome),
        statusErrorInv (check_api_endpoint now o)) := by
  refine ⟨?_, ?_, ?_, ?_, ?_⟩
  · intro now url es o
    cases o with
    | response code e =>
        by_cases hc : code = es <;>
          simp [check_http_service, statusErrorInv, errorMessageOf, hc,
                Option.orElse]
    | requestError m =>
        simp [check_http_service, statusErrorInv, errorMessageOf, Option.orElse]
    | otherError m =>
        simp [check_http_service, statusErrorInv, errorMessageOf, Option.orElse]
  · intro now o
    cases o <;>
      simp [check_tcp_service, statusErrorInv, errorMessageOf, Option.orElse]
  · intro now eip o
    cases o with
    | resolved ips e =>
        cases eip with
        | some ip =>
            simp only [check_dns_resolution]
            split <;>
              simp [statusErrorInv, errorMessageOf, Option.orElse]
        | none =>
            simp [check_dns_resolution, statusErrorInv, errorMessageOf,
                  Option.orElse]
    | failure m =>
        simp [check_dns_resolution, statusErrorInv, errorMessageOf, Option.orElse]
  · intro now o
    cases o with
    | response code body e =>
        by_cases hc : 200 ≤ code ∧ code < 300
        · cases body <;>
            simp [check_api_endpoint_async, statusErrorInv, errorMessageOf, hc,
                  Option.orElse]
        · simp [check_api_endpoint_async, statusErrorInv, errorMessageOf, hc,
                Option.orElse]
    | requestError m =>
        simp [check_api_endpoint_async, statusErrorInv, errorMessageOf,
              Option.orElse]
  · intro now o
    simp [check_api_endpoint, statusErrorInv, errorMessageOf, Option.orElse]

/-- Witness for C4 at concrete results: a refused TCP connection is down
with a non-null error message; an expected-status HTTP 200 response is up
with a null one. -/
theorem check_results_error_invariant_witness :
    errorMessageOf (check_tcp_service 0 (TcpOutcome.failure "refused")) ≠ none
    ∧ errorMessageOf
        (check_http_service 0 "https://example.com" 200
          (HttpOutcome.response 200 3)) = none :=
  ⟨(check_results_error_invariant.2.1 0 (TcpOutcome.failure "refused")).1 rfl,
   (check_results_error_invariant.1 0 "https://example.com" 200
      (HttpOutcome.response 200 3)).2 (by simp [check_http_service])⟩

/-- C6: `get_uptime_stats` (database.py:84-108) reports uptime 0.0 and 0
total checks when no rows fall in the window, and for a non-empty window
selection of N rows with S of status "up" reports exactly 100*S/N
(arithmetic in ℚ; the source computes the same expression in Python
floats). -/
theorem uptime_stats_exact (rows : List CheckRow) (name : String) (now : ℚ)
    (hours : ℕ) :
    (rowsInWindow rows name now hours = [] →
        (get_uptime_stats rows name now hours).uptime_percent = 0
        ∧ (get_uptime_stats rows name now hours).total_checks = 0)
    ∧ (0 < (rowsInWindow rows name now hours).length →
        (get_uptime_stats rows name now hours).uptime_percent
          = 100 * ((rowsInWindow rows name now hours).countP
                      (fun r => r.status = "up") : ℚ)
              / ((rowsInWindow rows name now hours).length : ℚ)) := by
  constructor
  · intro h
    simp [get_uptime_stats, h]
  · intro h
    simp only [get_uptime_stats]
    rw [if_pos h]
    ring

/-- Witness for C6: an empty store gives 0.0 and 0; two in-window rows of
which one is "up" give exactly 100*1/2 = 50. -/
theorem uptime_stats_exact_witness :
    ((get_uptime_stats [] "svc" 10000 24).uptime_percent = 0
      ∧ (get_uptime_stats [] "svc" 10000 24).total_checks = 0)
    ∧ (get_uptime_stats
        [{ service_name := "svc", status := "up", timestamp := 100 },
         { service_name := "svc", status := "down", timestamp := 200 }]
        "svc" 10000 24).uptime_percent = 50 := by
  refine ⟨(uptime_stats_exact [] "svc" 10000 24).1 rfl, ?_⟩
  have h := (uptime_stats_exact
    [{ service_name := "svc", status := "up", timestamp := 100 },
     { service_name := "svc", status := "down", timestamp := 200 }]
    "svc" 10000 24).2 (by norm_num [rowsInWindow])
  rw [h]
  norm_num [rowsInWindow]
  simp [List.countP_cons, List.countP_nil]
  norm_num

/-- C7: starting from the empty per-service buffer, any sequence of
record operations (checker.py:477-479, identically 230-231) leaves at
most 100 entries; after 101 insertions the buffer is exactly the last 100
inserts in capture order, so the first insert has been evicted and is
absent whenever it does not recur among the others. -/
theorem metrics_cache_fifo_bound :
    (∀ (α : Type) (xs : List α), (recordAll ([] : List α) xs).length ≤ 100)
    ∧ (∀ (α : Type) (x : α) (xs : List α), xs.length = 100 →
        recordAll ([] : List α) (x :: xs) = xs
        ∧ (x ∉ xs → x ∉ recordAll ([] : List α) (x :: xs))) := by
  constructor
  · intro α xs
    exact recordAll_length_le xs [] (by simp)
  · intro α x xs hlen
    have hm : recordMetric ([] : List α) x = [x] := by
      simp [recordMetric]
    have hstep : recordAll ([] : List α) (x :: xs) = recordAll [x] xs := by
      show recordAll (recordMetric [] x) xs = _
      rw [hm]
    have he : recordAll [x] xs = ([x] ++ xs).drop 1 :=
      recordAll_evict_one xs [x] (by simp) (by simp) (by simp [hlen])
    have heq : recordAll ([] : List α) (x :: xs) = xs := by
      rw [hstep, he]
      simp
    exact ⟨heq, fun hnot => by rw [heq]; exact hnot⟩

/-- Witness for C7: inserting 0 followed by one hundred 1s leaves exactly
the hundred 1s; the first insert 0 is gone. -/
theorem metrics_cache_fifo_bound_witness :
    recordAll ([] : List ℕ) (0 :: List.replicate 100 1) = List.replicate 100 1
    ∧ (0 : ℕ) ∉ recordAll ([] : List ℕ) (0 :: List.replicate 100 1) := by
  have h := metrics_cache_fifo_bound.2 ℕ 0 (List.replicate 100 1) (by simp)
  exact ⟨h.1, h.2 (by simp)⟩

/-- C9 counterexample: a query failure inside `get_history`
(database.py:69-82) or `get_uptime_stats` (database.py:84-108) propagates
before `conn.close()` is reached — neither has a `try`/`finally` — so the
operation exits without releasing its connection, refuting the claim
that every store operation releases on every exit path. -/
theorem history_query_failure_leaks_connection :
    (getHistoryRun (QueryOutcome.fail "database is locked")).connReleased
        = false
    ∧ (getUptimeStatsRun (QueryOutcome.fail "database is locked")).connReleased
        = false :=
  ⟨rfl, rfl⟩

/-- C9 (amended): each store operation acquires its own connection;
`log_check` (database.py:48-67) releases it on every exit path via
`try`/`finally`, while `get_history` and `get_uptime_stats` release it
exactly when their query succeeds — a raised query error exits before the
close. -/
theorem store_ops_connection_release (qa : QueryOutcome Unit)
    (qh : QueryOutcome (List CheckRow)) (qu : QueryOutcome UptimeStats) :
    (logCheckRun qa).connReleased = true
    ∧ ((getHistoryRun qh).connReleased = true ↔ qh.isOk = true)
    ∧ ((getUptimeStatsRun qu).connReleased = true ↔ qu.isOk = true) := by
  refine ⟨?_, ?_, ?_⟩
  · cases qa <;> rfl
  · cases qh <;> simp [getHistoryRun, QueryOutcome.isOk]
  · cases qu <;> simp [getUptimeStatsRun, QueryOutcome.isOk]

/-- Witness for the amended statement of C9: a failing `log_check` still
releases its connection; a successful `get_history` releases it too. -/
theorem store_ops_connection_release_witness :
    (logCheckRun (QueryOutcome.fail "disk I/O error")).connReleased = true
    ∧ (getHistoryRun (QueryOutcome.ok [])).connReleased = true :=
  ⟨(store_ops_connection_release (QueryOutcome.fail "disk I/O error")
      (QueryOutcome.ok []) (QueryOutcome.ok ⟨0, 0, 0⟩)).1,
   ((store_ops_connection_release (QueryOutcome.fail "disk I/O error")
      (QueryOutcome.ok []) (QueryOutcome.ok ⟨0, 0, 0⟩)).2.1).mpr rfl⟩

/-- C10: a service definition whose (defaulted) type is none of http,
tcp, dns, api is dispatched to the literal
`{"status": "unknown", "error": "Unknown type"}` result
(checker.py:464, identically 207) without raising, and any dispatched
result whose status is neither "up" nor "down" arises exactly from that
branch with status "unknown".  (The http branch of the effective
dispatcher returns a coroutine rather than any result, so it contributes
no dispatched result at all; see the C8 theorem.) -/
theorem unknown_type_dispatch (svc : Service) (now : Ms) (env : Env) :
    (svc.type.getD "http" ∉ validTypes →
        performCheck svc now env = Dispatched.result unknownResult
        ∧ unknownResult.status = "unknown"
        ∧ unknownResult.error = some "Unknown type")
    ∧ (∀ r, performCheck svc now env = Dispatched.result r →
        r.status ≠ "up" → r.status ≠ "down" →
        svc.type.getD "http" ∉ validTypes ∧ r.status = "unknown") := by
  have hpc : performCheck svc now env =
      (if svc.type.getD "http" = "http" then Dispatched.coroutine
       else if svc.type.getD "http" = "tcp" then
         Dispatched.result (check_tcp_service now env.tcp)
       else if svc.type.getD "http" = "dns" then
         Dispatched.result (check_dns_resolution now none env.dns)
       else if svc.type.getD "http" = "api" then
         Dispatched.result (check_api_endpoint now env.api)
       else Dispatched.result unknownResult) := rfl
  by_cases h1 : svc.type.getD "http" = "http"
  · rw [hpc, if_pos h1]
    exact ⟨fun hmem => absurd (by simp [validTypes, h1]) hmem,
           fun r hr _ _ => absurd hr (by simp)⟩
  · rw [hpc, if_neg h1]
    by_cases h2 : svc.type.getD "http" = "tcp"
    · rw [if_pos h2]
      refine ⟨fun hmem => absurd (by simp [validTypes, h2]) hmem,
              fun r hr hup hdown => ?_⟩
      injection hr with hre
      subst hre
      rcases status_check_tcp now env.tcp with h | h
      · exact absurd h hup
      · exact absurd h hdown
    · rw [if_neg h2]
      by_cases h3 : svc.type.getD "http" = "dns"
      · rw [if_pos h3]
        refine ⟨fun hmem => absurd (by simp [validTypes, h3]) hmem,
                fun r hr hup hdown => ?_⟩
        injection hr with hre
        subst hre
        rcases status_check_dns now none env.dns with h | h
        · exact absurd h hup
        · exact absurd h hdown
      · rw [if_neg h3]
        by_cases h4 : svc.type.getD "http" = "api"
        · rw [if_pos h4]
          refine ⟨fun hmem => absurd (by simp [validTypes, h4]) hmem,
                  fun r hr hup hdown => ?_⟩
          injection hr with hre
          subst hre
          exact absurd (status_check_api now env.api) hdown
        · rw [if_neg h4]
          refine ⟨fun _ => ⟨rfl, rfl, rfl⟩, fun r hr _ _ => ?_⟩
          injection hr with hre
          subst hre
          exact ⟨by simp [validTypes, h1, h2, h3, h4], rfl⟩

/-- Witness for C10: a service of type "icmp" is dispatched without
raising to the unknown-type result. -/
theorem unknown_type_dispatch_witness :
    performCheck { name := "x", type := some "icmp" } 0 {}
      = Dispatched.result unknownResult
    ∧ unknownResult.status = "unknown"
    ∧ unknownResult.error = some "Unknown type" :=
  (unknown_type_dispatch { name := "x", type := some "icmp" } 0 {}).1
    (by decide)

end NetDiag

